import Mathlib

/-!
Verification of the dlpark tensor-exchange crate against its specification.

The development shallowly embeds the claim-relevant parts of the crate:
shape and stride storage (src/shape_and_strides.rs), the Python capsule
hand-off protocol (src/python.rs) and the proxy drop path (src/tensor.rs).
Owned i64 buffers become lists of integers, raw addresses become natural
numbers with 0 standing for the null pointer, and operations that can
panic in Rust (failed assertions, out-of-bounds indexing) return none.
-/

namespace Dlpark

/-! ### Shape and strides storage, from src/shape_and_strides.rs -/

/-- Embeds the accumulation loop of new_contiguous_with_strides: walking the
shape from the innermost dimension outward, the first component collects the
row-major strides (the stride recorded for a dimension is the running product
of all later dimensions) and the second component is the running product
itself. -/
def contiguousStridesCore : List Int → List Int × Int
  | [] => ([], 1)
  | x :: xs =>
    let r := contiguousStridesCore xs
    (r.2 :: r.1, x * r.2)

/-- Modelled from the spec: the element-wise contiguity comparison of
crate::utils::is_contiguous (the utils module is not among the provided
sources). Checked from the innermost dimension outward, each stride must
equal the product of all later shape entries; the second component carries
that expected stride upward. Pairs beyond the shorter list are ignored,
matching iterator zip semantics. -/
def utilsIsContiguousCore : List Int → List Int → Bool × Int
  | s :: sh, st :: sts =>
    let r := utilsIsContiguousCore sh sts
    (r.1 && decide (st = r.2), s * r.2)
  | _, _ => (true, 1)

/-- Modelled from the spec: crate::utils::is_contiguous, the row-major
comparison entry point. -/
def utils_is_contiguous (shape strides : List Int) : Bool :=
  (utilsIsContiguousCore shape strides).1

/-- The ShapeAndStrides enum. Contiguous owns a shape-only buffer,
WithStrides owns one concatenated buffer holding shape then strides, and
Borrowed records the borrowed shape array, the optional borrowed strides
array and the stored length (the arrays stand for the memory behind the
borrowed NonNull pointers). -/
inductive ShapeAndStrides where
  | Contiguous (buf : List Int)
  | WithStrides (buf : List Int)
  | Borrowed (shape : List Int) (strides : Option (List Int)) (len : Nat)
deriving DecidableEq

/-- The usize to i32 cast used by ndim. -/
def i32ofNat (n : Nat) : Int := (((n + 2 ^ 31) % 2 ^ 32 : Nat) : Int) - 2 ^ 31

def ShapeAndStrides.len : ShapeAndStrides → Nat
  | .Contiguous v => v.length
  | .WithStrides v => v.length / 2
  | .Borrowed _ _ n => n

def ShapeAndStrides.ndim (s : ShapeAndStrides) : Int := i32ofNat s.len

def ShapeAndStrides.isEmptyDims (s : ShapeAndStrides) : Bool := s.len == 0

/-- The shape view: the whole buffer for Contiguous, the first half of the
buffer for WithStrides, and len elements read from the borrowed shape
array for Borrowed. -/
def ShapeAndStrides.shape : ShapeAndStrides → List Int
  | .Contiguous v => v
  | .WithStrides v => v.take (v.length / 2)
  | .Borrowed sh _ n => sh.take n

/-- The strides view: absent for Contiguous, the second half of the buffer
for WithStrides, and len elements read from the borrowed strides array
when one is present. -/
def ShapeAndStrides.strides : ShapeAndStrides → Option (List Int)
  | .Contiguous _ => none
  | .WithStrides v => some (v.drop (v.length / 2))
  | .Borrowed _ st n => st.map (fun l => l.take n)

def ShapeAndStrides.new_contiguous (shape : List Int) : ShapeAndStrides :=
  .Contiguous shape

/-- new_with_strides collects both iterators, asserts that the lengths
agree (none models the assertion failure) and concatenates shape and
strides into one owned buffer. -/
def ShapeAndStrides.new_with_strides (shape strides : List Int) :
    Option ShapeAndStrides :=
  if shape.length = strides.length then
    some (.WithStrides (shape ++ strides))
  else
    none

/-- new_contiguous_with_strides fills one buffer of twice the shape length:
shape entries in the first half, and in the second half the row-major
strides accumulated from the innermost dimension outward. -/
def ShapeAndStrides.new_contiguous_with_strides (shape : List Int) :
    ShapeAndStrides :=
  .WithStrides (shape ++ (contiguousStridesCore shape).1)

/-- The length assertion of new_borrowed, fired only when strides are
supplied. -/
def stridesLenOk (shape : List Int) : Option (List Int) → Bool
  | some st => shape.length == st.length
  | none => true

/-- new_borrowed asserts matching lengths when strides are supplied, then
takes the address of element 0 of the shape slice; on an empty shape that
indexing panics, which none models. -/
def ShapeAndStrides.new_borrowed (shape : List Int)
    (strides : Option (List Int)) : Option ShapeAndStrides :=
  if stridesLenOk shape strides then
    if shape.length = 0 then none
    else some (.Borrowed shape strides shape.length)
  else none

/-- is_contiguous: immediately true for Contiguous and for Borrowed without
strides; otherwise the row-major comparison of the shape view against the
strides view (the unwrap of the strides option is modelled by getD). -/
def ShapeAndStrides.is_contiguous (s : ShapeAndStrides) : Bool :=
  match s with
  | .Contiguous _ => true
  | .Borrowed _ none _ => true
  | .WithStrides _ | .Borrowed _ (some _) _ =>
    utils_is_contiguous s.shape (s.strides.getD [])

/-! ### Lemmas about the stride computations -/

theorem contiguousStridesCore_snd (l : List Int) :
    (contiguousStridesCore l).2 = l.prod := by
  induction l with
  | nil => simp [contiguousStridesCore]
  | cons x xs ih => simp [contiguousStridesCore, ih]

theorem contiguousStridesCore_length (l : List Int) :
    (contiguousStridesCore l).1.length = l.length := by
  induction l with
  | nil => simp [contiguousStridesCore]
  | cons x xs ih => simp [contiguousStridesCore, ih]

/-- The accumulated strides are exactly the products of the later shape
entries, index by index. -/
theorem contiguousStridesCore_eq_map (l : List Int) :
    (contiguousStridesCore l).1
      = (List.range l.length).map (fun i => ((l.drop (i + 1)).prod)) := by
  induction l with
  | nil => simp [contiguousStridesCore]
  | cons x xs ih =>
    simp only [contiguousStridesCore, List.length_cons, List.range_succ_eq_map,
      List.map_cons, List.map_map, contiguousStridesCore_snd]
    refine congrArg₂ _ (by simp) ?_
    rw [ih]
    rfl

theorem utilsIsContiguousCore_snd (sh st : List Int)
    (h : st.length = sh.length) :
    (utilsIsContiguousCore sh st).2 = sh.prod := by
  induction sh generalizing st with
  | nil => cases st <;> simp_all [utilsIsContiguousCore]
  | cons s sh ih =>
    cases st with
    | nil => simp at h
    | cons st1 sts =>
      simp only [utilsIsContiguousCore, List.prod_cons]
      rw [ih sts (by simpa using h)]

/-- The element-wise comparison succeeds exactly when the stride list equals
the accumulated row-major strides, provided the lengths agree. -/
theorem utilsIsContiguousCore_iff (sh st : List Int)
    (h : st.length = sh.length) :
    (utilsIsContiguousCore sh st).1 = true
      ↔ st = (contiguousStridesCore sh).1 := by
  induction sh generalizing st with
  | nil => cases st <;> simp_all [utilsIsContiguousCore, contiguousStridesCore]
  | cons s sh ih =>
    cases st with
    | nil => simp at h
    | cons st1 sts =>
      have hlen : sts.length = sh.length := by simpa using h
      simp only [utilsIsContiguousCore, contiguousStridesCore,
        Bool.and_eq_true, decide_eq_true_eq, List.cons.injEq,
        utilsIsContiguousCore_snd sh sts hlen, contiguousStridesCore_snd,
        ih sts hlen]
      tauto

theorem utils_is_contiguous_iff (sh st : List Int)
    (h : st.length = sh.length) :
    utils_is_contiguous sh st = true
      ↔ st = (List.range sh.length).map (fun i => ((sh.drop (i + 1)).prod)) := by
  rw [utils_is_contiguous, utilsIsContiguousCore_iff sh st h,
    contiguousStridesCore_eq_map]

theorem utils_is_contiguous_self (sh : List Int) :
    utils_is_contiguous sh (contiguousStridesCore sh).1 = true :=
  (utilsIsContiguousCore_iff sh _ (contiguousStridesCore_length sh)).mpr rfl

/-! ### Lemmas about the ShapeAndStrides views -/

theorem withStrides_buf_length (sh st : List Int) (h : sh.length = st.length) :
    (sh ++ st).length / 2 = sh.length := by
  simp only [List.length_append]
  omega

theorem withStrides_len (sh st : List Int) (h : sh.length = st.length) :
    (ShapeAndStrides.WithStrides (sh ++ st)).len = sh.length := by
  simp only [ShapeAndStrides.len]
  exact withStrides_buf_length sh st h

theorem withStrides_shape (sh st : List Int) (h : sh.length = st.length) :
    (ShapeAndStrides.WithStrides (sh ++ st)).shape = sh := by
  simp only [ShapeAndStrides.shape, withStrides_buf_length sh st h]
  exact List.take_left sh st

theorem withStrides_strides (sh st : List Int) (h : sh.length = st.length) :
    (ShapeAndStrides.WithStrides (sh ++ st)).strides = some st := by
  simp only [ShapeAndStrides.strides, withStrides_buf_length sh st h]
  rw [List.drop_left]

theorem is_contiguous_withStrides (v : List Int) :
    (ShapeAndStrides.WithStrides v).is_contiguous
      = utils_is_contiguous (ShapeAndStrides.WithStrides v).shape
          (((ShapeAndStrides.WithStrides v).strides).getD []) := rfl

theorem is_contiguous_borrowed_some (sh st : List Int) (n : Nat) :
    (ShapeAndStrides.Borrowed sh (some st) n).is_contiguous
      = utils_is_contiguous (ShapeAndStrides.Borrowed sh (some st) n).shape
          (((ShapeAndStrides.Borrowed sh (some st) n).strides).getD []) := rfl

theorem new_with_strides_eq_some (shape strides : List Int)
    (v : ShapeAndStrides)
    (h : ShapeAndStrides.new_with_strides shape strides = some v) :
    shape.length = strides.length
      ∧ v = ShapeAndStrides.WithStrides (shape ++ strides) := by
  unfold ShapeAndStrides.new_with_strides at h
  split at h
  · exact ⟨by assumption, (Option.some.injEq _ _ ▸ h).symm⟩
  · exact absurd h (by simp)

theorem new_borrowed_eq_some (shape : List Int) (ost : Option (List Int))
    (w : ShapeAndStrides)
    (h : ShapeAndStrides.new_borrowed shape ost = some w) :
    stridesLenOk shape ost = true ∧ shape.length ≠ 0
      ∧ w = ShapeAndStrides.Borrowed shape ost shape.length := by
  unfold ShapeAndStrides.new_borrowed at h
  split at h
  · split at h
    · exact absurd h (by simp)
    · exact ⟨by assumption, by assumption, (Option.some.injEq _ _ ▸ h).symm⟩
  · exact absurd h (by simp)

/-! ### The Python capsule hand-off protocol, from src/python.rs -/

def DLPACK_CAPSULE_NAME : String := "dltensor"

def DLPACK_CAPSULE_USED_NAME : String := "used_dltensor"

/-- Modelled from the spec: the binary descriptor layout of section 6 (the
ffi module is not among the provided sources). Pointer fields hold
addresses, 0 standing for null. -/
structure DLTensorRec where
  data : Nat
  device_type : Nat
  device_id : Int
  ndim : Int
  dtype_code : Nat
  dtype_bits : Nat
  dtype_lanes : Nat
  shape : Nat
  strides : Nat
  byte_offset : Nat
deriving DecidableEq

/-- Modelled from the spec: the owning triple of descriptor, opaque context
and optional release callback. The callback is summarized by its observable
effect at this boundary: present or absent, and when present whether
invoking it leaves a host exception raised. -/
structure DLManagedTensor where
  dl_tensor : DLTensorRec
  manager_ctx : Nat
  deleter : Option Bool
deriving DecidableEq

/-- Modelled from the spec: the host capsule, a raw pointer wrapped with a
name tag. -/
structure Capsule where
  name : String
  ptr : Nat
deriving DecidableEq

/-- The observable host interpreter state around the protocol: the raised
exception slot, the count of unraisable error reports, the trace of
addresses on which a triple deleter was invoked, and whether a failed
assertion aborted. -/
structure PyState where
  raised : Option Nat
  unraisable : Nat
  deleterCalls : List Nat
  aborted : Bool
deriving DecidableEq

def pyStateInit : PyState :=
  { raised := none, unraisable := 0, deleterCalls := [], aborted := false }

def pyCapsuleError : Nat := 1

def deleterRaisedError : Nat := 2

/-- Modelled from the spec: PyCapsule_IsValid holds when the tag matches
and the wrapped pointer is non-null. -/
def PyCapsule_IsValid (cap : Capsule) (nm : String) : Bool :=
  decide (cap.name = nm) && decide (cap.ptr ≠ 0)

/-- Modelled from the spec: PyCapsule_GetPointer returns the wrapped
pointer when the tag matches, and otherwise raises a host error and
returns null. -/
def PyCapsule_GetPointer (cap : Capsule) (nm : String) (s : PyState) :
    Nat × PyState :=
  if cap.name = nm then (cap.ptr, s)
  else (0, { s with raised := some pyCapsuleError })

/-- Modelled from the spec: PyCapsule_SetName renames the tag. -/
def PyCapsule_SetName (cap : Capsule) (nm : String) : Capsule :=
  { cap with name := nm }

/-- Modelled from the spec: PyErr_WriteUnraisable reports the currently
raised exception on the unraisable channel and clears it. -/
def PyErr_WriteUnraisable (s : PyState) : PyState :=
  { s with unraisable := s.unraisable + 1, raised := none }

/-- The producer side: wrap the triple pointer in a capsule tagged with the
active dltensor name. -/
def dlpack_to_py_capsule (dlpack : Nat) : Capsule :=
  { name := DLPACK_CAPSULE_NAME, ptr := dlpack }

/-- The producer capsule destructor, following the source line by line: an
early return when the capsule is valid under the used tag; save the raised
exception; read the pointer under the active tag; on null report on the
unraisable channel and restore; otherwise invoke the deleter when present,
assert that no exception is raised (a failed assertion aborts), and restore
the saved exception. mem maps addresses to the triples stored there. -/
def dlpack_capsule_deleter (mem : Nat → DLManagedTensor) (cap : Capsule)
    (s : PyState) : PyState :=
  if PyCapsule_IsValid cap DLPACK_CAPSULE_USED_NAME then s
  else
    let exc := s.raised
    let s1 : PyState := { s with raised := none }
    let r := PyCapsule_GetPointer cap DLPACK_CAPSULE_NAME s1
    if r.1 = 0 then
      { PyErr_WriteUnraisable r.2 with raised := exc }
    else
      match (mem r.1).deleter with
      | some raises =>
        let s3 : PyState := { r.2 with
          deleterCalls := r.2.deleterCalls ++ [r.1],
          raised := if raises then some deleterRaisedError else r.2.raised }
        if s3.raised.isSome then { s3 with aborted := true }
        else { s3 with raised := exc }
      | none => { r.2 with raised := exc }

/-- The consumer claim: read the pointer under the active tag, rename the
capsule to the used tag, and wrap whatever came back with NonNull
new_unchecked. The first component is that pointer, 0 when GetPointer
failed; the source performs no null check before new_unchecked. -/
def py_capsule_to_dlpack (cap : Capsule) (s : PyState) :
    Nat × Capsule × PyState :=
  let r := PyCapsule_GetPointer cap DLPACK_CAPSULE_NAME s
  (r.1, PyCapsule_SetName cap DLPACK_CAPSULE_USED_NAME, r.2)

/-! ### The proxy drop path, from src/tensor.rs -/

/-- The ManagerContext of the proxy: an optional address of a stored
context cell. -/
structure ManagerContext where
  ptr : Option Nat
deriving DecidableEq

structure ManagedTensorProxy where
  dl_tensor : DLTensorRec
  manager_ctx : ManagerContext
  deleter : Option Bool
deriving DecidableEq

/-- The From conversion of a DLManagedTensor into a ManagedTensorProxy:
fieldAddr is the address taken of the manager_ctx field of the by-value
argument, recorded only when that field is non-null; the deleter function
pointer is carried over. The original triple allocation itself is not
recorded anywhere in the proxy. -/
def managedTensorProxy_from (value : DLManagedTensor) (fieldAddr : Nat) :
    ManagedTensorProxy :=
  { dl_tensor := value.dl_tensor,
    manager_ctx := ⟨if value.manager_ctx = 0 then none else some fieldAddr⟩,
    deleter := value.deleter }

/-- The From conversion of a proxy back into a DLManagedTensor value,
reading the stored context cell through ctxmem when a pointer is held. -/
def managedTensorProxy_into (ctxmem : Nat → Nat) (p : ManagedTensorProxy) :
    DLManagedTensor :=
  { dl_tensor := p.dl_tensor,
    manager_ctx := match p.manager_ctx.ptr with | none => 0 | some a => ctxmem a,
    deleter := p.deleter }

/-- The observable outcome of the pinned drop: the reconstructed local
triple and the addresses passed to the deleter, in order. -/
structure DropEffect where
  localTriple : DLManagedTensor
  deleterArgs : List Nat
deriving DecidableEq

/-- The pinned drop of ManagedTensorProxy: reconstruct a DLManagedTensor
into a fresh stack local (localAddr is the address of that local) and, when
a deleter is present, invoke it once with the address of that local. -/
def managedTensorProxy_drop (ctxmem : Nat → Nat) (p : ManagedTensorProxy)
    (localAddr : Nat) : DropEffect :=
  let t := managedTensorProxy_into ctxmem p
  match p.deleter with
  | some _ => { localTriple := t, deleterArgs := [localAddr] }
  | none => { localTriple := t, deleterArgs := [] }

/-- An all-zero descriptor used by the concrete scenarios. -/
def dlTensorZero : DLTensorRec := ⟨0, 0, 0, 0, 0, 0, 0, 0, 0, 0⟩

/-! ### Claims about shape and stride handling -/

/-- Claim C5: is_contiguous returns true immediately for the Contiguous
variant and for the Borrowed variant without strides; for WithStrides and
Borrowed-with-strides values it returns true iff the stored strides equal
the row-major strides implied by the shape, each stride the product of the
later shape entries; and for shape [1,2,3] with strides [1,2,3] it returns
false. -/
theorem claim_C5 :
    (∀ buf, (ShapeAndStrides.Contiguous buf).is_contiguous = true)
    ∧ (∀ sh n, (ShapeAndStrides.Borrowed sh none n).is_contiguous = true)
    ∧ (∀ shape strides v,
        ShapeAndStrides.new_with_strides shape strides = some v →
        (v.is_contiguous = true
          ↔ strides
              = (List.range shape.length).map
                  (fun i => ((shape.drop (i + 1)).prod))))
    ∧ (∀ shape strides w,
        ShapeAndStrides.new_borrowed shape (some strides) = some w →
        (w.is_contiguous = true
          ↔ strides
              = (List.range shape.length).map
                  (fun i => ((shape.drop (i + 1)).prod))))
    ∧ Option.map ShapeAndStrides.is_contiguous
        (ShapeAndStrides.new_with_strides [1, 2, 3] [1, 2, 3])
        = some false := by
  refine ⟨fun buf => rfl, fun sh n => rfl, ?_, ?_, by decide⟩
  · intro shape strides v h
    obtain ⟨hlen, hv⟩ := new_with_strides_eq_some shape strides v h
    subst hv
    rw [is_contiguous_withStrides, withStrides_shape shape strides hlen,
      withStrides_strides shape strides hlen, Option.getD_some]
    exact utils_is_contiguous_iff shape strides hlen.symm
  · intro shape strides w h
    obtain ⟨hok, _, hw⟩ := new_borrowed_eq_some shape (some strides) w h
    have hlen : shape.length = strides.length := by
      simpa [stridesLenOk] using hok
    subst hw
    rw [is_contiguous_borrowed_some]
    simp only [ShapeAndStrides.shape, ShapeAndStrides.strides,
      Option.map_some', Option.getD_some, List.take_length]
    rw [hlen, List.take_length]
    have h2 := utils_is_contiguous_iff shape strides hlen.symm
    rw [hlen] at h2
    exact h2

/-- Claim C5 witness: the branches of claim_C5 evaluated at the concrete
inputs named by the claim. -/
theorem claim_C5_witness :
    (ShapeAndStrides.Contiguous [1, 2, 3]).is_contiguous = true
    ∧ (ShapeAndStrides.Borrowed [1, 2, 3] none 3).is_contiguous = true
    ∧ (ShapeAndStrides.WithStrides [1, 2, 3, 6, 3, 1]).is_contiguous = true
    ∧ Option.map ShapeAndStrides.is_contiguous
        (ShapeAndStrides.new_with_strides [1, 2, 3] [1, 2, 3])
        = some false :=
  ⟨claim_C5.1 [1, 2, 3], claim_C5.2.1 [1, 2, 3] 3,
    (claim_C5.2.2.1 [1, 2, 3] [6, 3, 1]
      (ShapeAndStrides.WithStrides [1, 2, 3, 6, 3, 1]) (by decide)).mpr
      (by decide),
    claim_C5.2.2.2.2⟩

/-- Claim C6: constructing via new_with_strides or new_borrowed from a shape
and an explicit strides array of different lengths fails fast (the length
assertion fires, modelled by none) rather than truncating either array. -/
theorem claim_C6 (shape strides : List Int)
    (h : shape.length ≠ strides.length) :
    ShapeAndStrides.new_with_strides shape strides = none
    ∧ ShapeAndStrides.new_borrowed shape (some strides) = none := by
  constructor
  · simp [ShapeAndStrides.new_with_strides, h]
  · simp [ShapeAndStrides.new_borrowed, stridesLenOk, h]

/-- Claim C6 witness: mismatched lengths two versus one. -/
theorem claim_C6_witness :
    ([1, 2] : List Int).length ≠ ([6] : List Int).length
    ∧ (ShapeAndStrides.new_with_strides [1, 2] [6] = none
        ∧ ShapeAndStrides.new_borrowed [1, 2] (some [6]) = none) :=
  ⟨by decide, claim_C6 [1, 2] [6] (by decide)⟩

/-- Claim C7: new_contiguous_with_strides materializes exactly the row-major
strides, each the product of the later shape entries, the result reports the
original shape and is contiguous, and for shape [1,2,3] the materialized
strides are [6,3,1]. -/
theorem claim_C7 (S : List Int) :
    (ShapeAndStrides.new_contiguous_with_strides S).strides
      = some ((List.range S.length).map (fun i => ((S.drop (i + 1)).prod)))
    ∧ (ShapeAndStrides.new_contiguous_with_strides S).shape = S
    ∧ (ShapeAndStrides.new_contiguous_with_strides S).is_contiguous = true
    ∧ (ShapeAndStrides.new_contiguous_with_strides [1, 2, 3]).strides
        = some [6, 3, 1] := by
  have hlen : S.length = (contiguousStridesCore S).1.length :=
    (contiguousStridesCore_length S).symm
  unfold ShapeAndStrides.new_contiguous_with_strides
  refine ⟨?_, withStrides_shape S _ hlen, ?_, by decide⟩
  · rw [withStrides_strides S _ hlen, contiguousStridesCore_eq_map]
  · rw [is_contiguous_withStrides, withStrides_shape S _ hlen,
      withStrides_strides S _ hlen, Option.getD_some]
    exact utils_is_contiguous_self S

/-- Claim C8: for equal-length shape and strides, new_with_strides builds a
single backing buffer of length twice the rank, len reports the rank, the
shape view is the input shape sitting in the first half of the buffer and
the strides view is the input strides sitting in the disjoint second
half. -/
theorem claim_C8 (shape strides : List Int)
    (h : shape.length = strides.length) :
    ShapeAndStrides.new_with_strides shape strides
      = some (ShapeAndStrides.WithStrides (shape ++ strides))
    ∧ (ShapeAndStrides.WithStrides (shape ++ strides)).len = shape.length
    ∧ (shape ++ strides).length = 2 * shape.length
    ∧ (ShapeAndStrides.WithStrides (shape ++ strides)).shape
        = (shape ++ strides).take shape.length
    ∧ (ShapeAndStrides.WithStrides (shape ++ strides)).shape = shape
    ∧ (ShapeAndStrides.WithStrides (shape ++ strides)).strides
        = some ((shape ++ strides).drop shape.length)
    ∧ (ShapeAndStrides.WithStrides (shape ++ strides)).strides
        = some strides := by
  refine ⟨by simp [ShapeAndStrides.new_with_strides, h],
    withStrides_len shape strides h, by simp [h.symm]; omega, ?_, ?_, ?_, ?_⟩
  · rw [withStrides_shape shape strides h, List.take_left]
  · exact withStrides_shape shape strides h
  · rw [withStrides_strides shape strides h, List.drop_left]
  · exact withStrides_strides shape strides h

/-- Claim C8 witness: the property instantiated at ranks 0, 1 and 4. -/
theorem claim_C8_witness :
    (([] : List Int).length = ([] : List Int).length
      ∧ (ShapeAndStrides.WithStrides (([] : List Int) ++ [])).len = 0)
    ∧ (([5] : List Int).length = ([1] : List Int).length
      ∧ (ShapeAndStrides.WithStrides ([5] ++ [1])).shape = [5]
      ∧ (ShapeAndStrides.WithStrides ([5] ++ [1])).strides = some [1])
    ∧ (([2, 3, 4, 5] : List Int).length = ([60, 20, 5, 1] : List Int).length
      ∧ (ShapeAndStrides.WithStrides ([2, 3, 4, 5] ++ [60, 20, 5, 1])).len = 4
      ∧ (ShapeAndStrides.WithStrides
          ([2, 3, 4, 5] ++ [60, 20, 5, 1])).shape = [2, 3, 4, 5]
      ∧ (ShapeAndStrides.WithStrides
          ([2, 3, 4, 5] ++ [60, 20, 5, 1])).strides = some [60, 20, 5, 1]) :=
  ⟨⟨rfl, by simpa using (claim_C8 [] [] rfl).2.1⟩,
    ⟨rfl, (claim_C8 [5] [1] rfl).2.2.2.2.1,
      (claim_C8 [5] [1] rfl).2.2.2.2.2.2⟩,
    ⟨rfl, (claim_C8 [2, 3, 4, 5] [60, 20, 5, 1] rfl).2.1,
      (claim_C8 [2, 3, 4, 5] [60, 20, 5, 1] rfl).2.2.2.2.1,
      (claim_C8 [2, 3, 4, 5] [60, 20, 5, 1] rfl).2.2.2.2.2.2⟩⟩

/-- Claim C9 counterexample: new_borrowed does not accept the rank-0 shape;
it indexes element 0 of the empty shape slice and panics (modelled by
none), with or without a strides argument. -/
theorem claim_C9_counterexample :
    ShapeAndStrides.new_borrowed ([] : List Int) none = none
    ∧ ShapeAndStrides.new_borrowed ([] : List Int) (some []) = none := by
  decide

/-- Claim C9 as amended: new_contiguous, new_with_strides and
new_contiguous_with_strides accept the rank-0 shape and yield ndim 0, an
empty shape view, an empty or absent strides view and is_contiguous true,
while new_borrowed rejects the rank-0 shape by panicking on the indexing of
element 0 of the shape slice. -/
theorem claim_C9 :
    (ShapeAndStrides.new_contiguous ([] : List Int)).ndim = 0
    ∧ (ShapeAndStrides.new_contiguous ([] : List Int)).shape = []
    ∧ (ShapeAndStrides.new_contiguous ([] : List Int)).strides = none
    ∧ (ShapeAndStrides.new_contiguous ([] : List Int)).is_contiguous = true
    ∧ ShapeAndStrides.new_with_strides ([] : List Int) []
        = some (ShapeAndStrides.WithStrides [])
    ∧ ShapeAndStrides.new_contiguous_with_strides ([] : List Int)
        = ShapeAndStrides.WithStrides []
    ∧ (ShapeAndStrides.WithStrides ([] : List Int)).ndim = 0
    ∧ (ShapeAndStrides.WithStrides ([] : List Int)).shape = []
    ∧ (ShapeAndStrides.WithStrides ([] : List Int)).strides = some []
    ∧ (ShapeAndStrides.WithStrides ([] : List Int)).is_contiguous = true
    ∧ ShapeAndStrides.new_borrowed ([] : List Int) none = none := by
  refine ⟨?_, rfl, rfl, rfl, rfl, rfl, ?_, rfl, rfl, rfl, rfl⟩ <;> decide

/-- Claim C10: the strides view is absent exactly for the Contiguous variant
and the Borrowed variant without strides; every WithStrides value respecting
the even-buffer invariant and every constructed Borrowed-with-strides value
yields a strides view of length len. -/
theorem claim_C10 :
    (∀ buf, (ShapeAndStrides.Contiguous buf).strides = none)
    ∧ (∀ sh n, (ShapeAndStrides.Borrowed sh none n).strides = none)
    ∧ (∀ buf : List Int, buf.length % 2 = 0 →
        Option.map List.length (ShapeAndStrides.WithStrides buf).strides
          = some (ShapeAndStrides.WithStrides buf).len)
    ∧ (∀ shape strides w,
        ShapeAndStrides.new_borrowed shape (some strides) = some w →
        w.strides = some strides
          ∧ Option.map List.length w.strides = some w.len)
    ∧ (∀ s : ShapeAndStrides, s.strides = none
        ↔ ((∃ b, s = ShapeAndStrides.Contiguous b)
            ∨ (∃ sh n, s = ShapeAndStrides.Borrowed sh none n))) := by
  refine ⟨fun buf => rfl, fun sh n => rfl, ?_, ?_, ?_⟩
  · intro buf hbuf
    simp only [ShapeAndStrides.strides, ShapeAndStrides.len,
      Option.map_some', Option.some.injEq, List.length_drop]
    omega
  · intro shape strides w h
    obtain ⟨hok, _, hw⟩ := new_borrowed_eq_some shape (some strides) w h
    have hlen : shape.length = strides.length := by
      simpa [stridesLenOk] using hok
    subst hw
    simp [ShapeAndStrides.strides, ShapeAndStrides.len, hlen]
  · intro s
    cases s with
    | Contiguous b => simp [ShapeAndStrides.strides]
    | WithStrides b => simp [ShapeAndStrides.strides]
    | Borrowed sh ost n =>
      cases ost <;> simp [ShapeAndStrides.strides]

/-- Claim C10 witness: the branches of claim_C10 evaluated at rank two
inputs. -/
theorem claim_C10_witness :
    (ShapeAndStrides.Contiguous [4, 5]).strides = none
    ∧ (ShapeAndStrides.Borrowed [4, 5] none 2).strides = none
    ∧ Option.map List.length (ShapeAndStrides.WithStrides [4, 5, 5, 1]).strides
        = some (ShapeAndStrides.WithStrides [4, 5, 5, 1]).len
    ∧ (ShapeAndStrides.Borrowed [4, 5] (some [5, 1]) 2).strides
        = some [5, 1] :=
  ⟨claim_C10.1 [4, 5], claim_C10.2.1 [4, 5] 2,
    claim_C10.2.2.1 [4, 5, 5, 1] (by decide),
    (claim_C10.2.2.2.1 [4, 5] [5, 1]
      (ShapeAndStrides.Borrowed [4, 5] (some [5, 1]) 2) (by decide)).1⟩

/-! ### Claims about the capsule protocol and the proxy drop -/

theorem capsule_tag_ne : DLPACK_CAPSULE_NAME ≠ DLPACK_CAPSULE_USED_NAME := by
  decide

/-- Claim C1: the producer capsule destructor releases at most once; when
the tag has been renamed to used_dltensor it does nothing, the deleter is
invoked only when the tag is still dltensor, and then only when a deleter
callback is present. The hypothesis records that protocol capsules wrap
non-null triple pointers. -/
theorem claim_C1 (mem : Nat → DLManagedTensor) (cap : Capsule) (s : PyState)
    (hptr : cap.ptr ≠ 0) :
    ((dlpack_capsule_deleter mem cap s).deleterCalls = s.deleterCalls
      ∨ (dlpack_capsule_deleter mem cap s).deleterCalls
          = s.deleterCalls ++ [cap.ptr])
    ∧ (cap.name = DLPACK_CAPSULE_USED_NAME →
        dlpack_capsule_deleter mem cap s = s)
    ∧ ((dlpack_capsule_deleter mem cap s).deleterCalls ≠ s.deleterCalls →
        cap.name = DLPACK_CAPSULE_NAME
          ∧ (mem cap.ptr).deleter.isSome = true) := by
  by_cases h1 : cap.name = DLPACK_CAPSULE_USED_NAME
  · simp [dlpack_capsule_deleter, PyCapsule_IsValid, h1, hptr]
  · by_cases h2 : cap.name = DLPACK_CAPSULE_NAME
    · cases hdel : (mem cap.ptr).deleter with
      | none =>
        simp [dlpack_capsule_deleter, PyCapsule_IsValid, PyCapsule_GetPointer,
          h1, h2, hptr, hdel, capsule_tag_ne]
      | some raises =>
        cases raises <;>
          simp [dlpack_capsule_deleter, PyCapsule_IsValid,
            PyCapsule_GetPointer, h1, h2, hptr, hdel, capsule_tag_ne]
    · simp [dlpack_capsule_deleter, PyCapsule_IsValid, PyCapsule_GetPointer,
        PyErr_WriteUnraisable, h1, h2, hptr]

/-- Claim C1 witness: a claimed capsule (tag renamed to used_dltensor) is
left untouched by the destructor. -/
theorem claim_C1_witness :
    (Capsule.mk DLPACK_CAPSULE_USED_NAME 5).ptr ≠ 0
    ∧ dlpack_capsule_deleter (fun _ => ⟨dlTensorZero, 0, some false⟩)
        (Capsule.mk DLPACK_CAPSULE_USED_NAME 5) pyStateInit = pyStateInit :=
  ⟨by decide,
    (claim_C1 (fun _ => ⟨dlTensorZero, 0, some false⟩)
      (Capsule.mk DLPACK_CAPSULE_USED_NAME 5) pyStateInit (by decide)).2.1 rfl⟩

/-- Claim C2 evaluated at the failing input: claiming a capsule whose tag
does not match the expected active tag (here an already claimed capsule
tagged used_dltensor wrapping pointer 42) does not fail with a recoverable
error returned to the caller; PyCapsule_GetPointer raises a host-level
error and returns null, and py_capsule_to_dlpack still completes, handing
the null pointer to NonNull new_unchecked and renaming the capsule. -/
theorem claim_C2_bug :
    (py_capsule_to_dlpack (Capsule.mk DLPACK_CAPSULE_USED_NAME 42)
        pyStateInit).1 = 0
    ∧ (py_capsule_to_dlpack (Capsule.mk DLPACK_CAPSULE_USED_NAME 42)
        pyStateInit).2.2.raised = some pyCapsuleError
    ∧ (py_capsule_to_dlpack (Capsule.mk DLPACK_CAPSULE_USED_NAME 42)
        pyStateInit).2.1.name = DLPACK_CAPSULE_USED_NAME := by
  decide

/-- Claim C3 counterexample: the producer triple the deleter was registered
for lives at heap address 100 and is never pointed to by the proxy; during
drop the reconstructed local triple occupies the distinct stack address
200, and the deleter receives 200, not 100. -/
theorem claim_C3_counterexample :
    (managedTensorProxy_drop (fun a => if a = 300 then 7 else 0)
        (managedTensorProxy_from ⟨dlTensorZero, 7, some false⟩ 300)
        200).deleterArgs = [200]
    ∧ ¬ (managedTensorProxy_drop (fun a => if a = 300 then 7 else 0)
        (managedTensorProxy_from ⟨dlTensorZero, 7, some false⟩ 300)
        200).deleterArgs = [100] := by
  decide

/-- Claim C3 as amended: on drop of the proxy, a present deleter is invoked
exactly once, with the address of the freshly reconstructed local
DLManagedTensor whose contents are rebuilt from the proxy, not with the
address of the original triple the callback was registered for (the proxy
retains no such pointer), and nothing is reused afterward. -/
theorem claim_C3 (ctxmem : Nat → Nat) (p : ManagedTensorProxy)
    (localAddr : Nat) (h : p.deleter.isSome = true) :
    (managedTensorProxy_drop ctxmem p localAddr).deleterArgs = [localAddr]
    ∧ (managedTensorProxy_drop ctxmem p localAddr).localTriple
        = managedTensorProxy_into ctxmem p := by
  cases hdel : p.deleter with
  | none => rw [hdel] at h; simp at h
  | some b => simp [managedTensorProxy_drop, hdel]

/-- Claim C3 witness: the amended property at the concrete scenario of the
counterexample. -/
theorem claim_C3_witness :
    (managedTensorProxy_from ⟨dlTensorZero, 7, some false⟩ 300).deleter.isSome
      = true
    ∧ (managedTensorProxy_drop (fun a => if a = 300 then 7 else 0)
        (managedTensorProxy_from ⟨dlTensorZero, 7, some false⟩ 300)
        200).deleterArgs = [200] :=
  ⟨by decide,
    (claim_C3 (fun a => if a = 300 then 7 else 0)
      (managedTensorProxy_from ⟨dlTensorZero, 7, some false⟩ 300) 200
      (by decide)).1⟩

/-- Claim C4 counterexample: with an in-flight exception saved and a triple
whose deleter raises, the destructor hits the assertion and aborts instead
of surfacing the failure through the unraisable channel. -/
theorem claim_C4_counterexample :
    (dlpack_capsule_deleter (fun _ => ⟨dlTensorZero, 0, some true⟩)
        (Capsule.mk DLPACK_CAPSULE_NAME 5)
        { raised := some 9, unraisable := 0, deleterCalls := [],
          aborted := false }).aborted = true
    ∧ (dlpack_capsule_deleter (fun _ => ⟨dlTensorZero, 0, some true⟩)
        (Capsule.mk DLPACK_CAPSULE_NAME 5)
        { raised := some 9, unraisable := 0, deleterCalls := [],
          aborted := false }).unraisable = 0 := by
  decide

/-- Claim C4 as amended: the destructor saves the in-flight exception and
restores it on every path that completes; a failure to read the capsule
pointer (foreign or invalid capsule) is surfaced through the unraisable
channel with the saved exception restored and no deleter invoked; but a
failure raised by the deleter callback itself makes the destructor abort
through its assertion rather than report on the unraisable channel. -/
theorem claim_C4 (mem : Nat → DLManagedTensor) (cap : Capsule) (s : PyState)
    (h0 : s.aborted = false) :
    ((dlpack_capsule_deleter mem cap s).aborted = false →
      (dlpack_capsule_deleter mem cap s).raised = s.raised)
    ∧ (PyCapsule_IsValid cap DLPACK_CAPSULE_USED_NAME = false →
        cap.name ≠ DLPACK_CAPSULE_NAME →
        (dlpack_capsule_deleter mem cap s).unraisable = s.unraisable + 1
        ∧ (dlpack_capsule_deleter mem cap s).raised = s.raised
        ∧ (dlpack_capsule_deleter mem cap s).deleterCalls = s.deleterCalls)
    ∧ ((dlpack_capsule_deleter mem cap s).aborted = true ↔
        (PyCapsule_IsValid cap DLPACK_CAPSULE_USED_NAME = false
          ∧ cap.name = DLPACK_CAPSULE_NAME ∧ cap.ptr ≠ 0
          ∧ (mem cap.ptr).deleter = some true)) := by
  by_cases h1 : PyCapsule_IsValid cap DLPACK_CAPSULE_USED_NAME = true
  · simp [dlpack_capsule_deleter, h1, h0]
  · by_cases h2 : cap.name = DLPACK_CAPSULE_NAME
    · by_cases h3 : cap.ptr = 0
      · simp [dlpack_capsule_deleter, PyCapsule_GetPointer,
          PyErr_WriteUnraisable, h1, h2, h3, h0]
      · cases hdel : (mem cap.ptr).deleter with
        | none =>
          simp [dlpack_capsule_deleter, PyCapsule_GetPointer, h1, h2, h3,
            h0, hdel, capsule_tag_ne]
        | some raises =>
          cases raises <;>
            simp [dlpack_capsule_deleter, PyCapsule_GetPointer, h1, h2, h3,
              h0, hdel, capsule_tag_ne]
    · simp [dlpack_capsule_deleter, PyCapsule_GetPointer,
        PyErr_WriteUnraisable, h1, h2, h0]

/-- Claim C4 witness: a foreign capsule is reported on the unraisable
channel, the exception state is preserved and no deleter runs. -/
theorem claim_C4_witness :
    (dlpack_capsule_deleter (fun _ => ⟨dlTensorZero, 0, none⟩)
        (Capsule.mk "foreign" 5) pyStateInit).unraisable
      = pyStateInit.unraisable + 1
    ∧ (dlpack_capsule_deleter (fun _ => ⟨dlTensorZero, 0, none⟩)
        (Capsule.mk "foreign" 5) pyStateInit).raised = pyStateInit.raised
    ∧ (dlpack_capsule_deleter (fun _ => ⟨dlTensorZero, 0, none⟩)
        (Capsule.mk "foreign" 5) pyStateInit).deleterCalls
      = pyStateInit.deleterCalls :=
  (claim_C4 (fun _ => ⟨dlTensorZero, 0, none⟩) (Capsule.mk "foreign" 5)
    pyStateInit rfl).2.1 (by decide) (by decide)

end Dlpark
